import Mathlib

/-!
# Verification of the quote-machine video composition worker

A shallow embedding of `src/televideditor.py`: the composition plan
(durations, geometry, the transform command and its audio routing), the
caption word-wrap and banner sizing, and the job pipeline with its
cleanup and error handling, together with theorems checking the
specification's claims against these definitions.

Durations and pixel positions are modelled as exact rationals (`ℚ`),
widths and heights as integers; Python truthiness and `int()` truncation
are made explicit.
-/

namespace Televideditor

/-! ## Constants (from the module header of the source) -/

def COMP_WIDTH : ℤ := 1080
def COMP_HEIGHT : ℤ := 1920
def FPS : ℕ := 30
def MEDIA_Y_OFFSET : ℚ := 100
def CAPTION_V_PADDING : ℕ := 37
def CAPTION_LINE_SPACING : ℕ := 12
def WRAP_WIDTH : ℕ := 30

/-- Python `int()` applied to a rational: truncation toward zero. -/
def pyInt (q : ℚ) : ℤ := if 0 ≤ q then ⌊q⌋ else ⌈q⌉

/-! ## Duration policy (`process_video_job`, step 2) -/

/-- Source line `final_duration = min(video_duration, audio_duration)`. -/
def final_duration (video_duration audio_duration : ℚ) : ℚ :=
  min video_duration audio_duration

/-! ## Geometry (`process_video_job`, step 4) -/

/-- Source line `scale_ratio = COMP_WIDTH / media_w` (float division). -/
def scale_ratio (media_w : ℤ) : ℚ := (COMP_WIDTH : ℚ) / (media_w : ℚ)

/-- Source line `scaled_media_h = int(media_h * scale_ratio)`. -/
def scaled_media_h (media_w media_h : ℤ) : ℤ :=
  pyInt ((media_h : ℚ) * scale_ratio media_w)

/-- Source line `media_y_pos = (COMP_HEIGHT / 2 - scaled_media_h / 2) + MEDIA_Y_OFFSET`. -/
def media_y_pos (media_w media_h : ℤ) : ℚ :=
  ((COMP_HEIGHT : ℚ) / 2 - (scaled_media_h media_w media_h : ℚ) / 2) + MEDIA_Y_OFFSET

/-- Source line `caption_y_pos = media_y_pos - caption_height + 1`. -/
def caption_y_pos (media_w media_h : ℤ) (caption_height : ℚ) : ℚ :=
  media_y_pos media_w media_h - caption_height + 1

/-! ## Filter graph and transform command (`process_video_job`, step 4)

The `filter_parts` strings of the source are embedded as structured data:
an overlay's x coordinate `(W-w)/2` becomes the `XPos.centered` tag, the
y coordinates are the computed rationals, and the audio line
`[3:a]asetpts=PTS-STARTPTS[final_a]` becomes `audioInputIndex := 3`. -/

inductive XPos
  | centered
  | absolute (x : ℚ)
deriving DecidableEq, Repr

structure OverlayOp where
  x : XPos
  y : ℚ
deriving DecidableEq, Repr

structure FilterGraph where
  scaleW : ℤ
  mediaOverlay : OverlayOp
  captionOverlay : OverlayOp
  audioInputIndex : ℕ
deriving DecidableEq, Repr

/-- The filter graph built by the source: `[1:v]scale=1080:-1`, media
overlaid at `(W-w)/2 : media_y`, caption at `(W-w)/2 : caption_y`, and
the final audio always taken from input 3 (the downloaded BGM). -/
def buildFilterGraph (media_y caption_y : ℚ) : FilterGraph :=
  { scaleW := COMP_WIDTH
    mediaOverlay := { x := XPos.centered, y := media_y }
    captionOverlay := { x := XPos.centered, y := caption_y }
    audioInputIndex := 3 }

/-- Files a job touches on disk, named after the job-scoped paths of the
source (`bg_{id}.mp4`, `bgm_{id}.mp3`, `caption_{id}.png`, `output_{id}.mp4`). -/
inductive FileId
  | bg
  | bgm
  | caption
  | output
deriving DecidableEq, Repr

/-- One token of the assembled transform command line. -/
inductive Arg
  | s (v : String)
  | q (v : ℚ)
  | colorSrc (w h : ℤ) (d : ℚ)
  | filterSpec (g : FilterGraph)
  | path (f : FileId)
deriving DecidableEq, Repr

/-- The ffmpeg invocation assembled by the source, token for token. -/
def ffmpeg_command (fd : ℚ) (g : FilterGraph) : List Arg :=
  [Arg.s "ffmpeg", Arg.s "-y",
   Arg.s "-f", Arg.s "lavfi", Arg.s "-i", Arg.colorSrc COMP_WIDTH COMP_HEIGHT fd,
   Arg.s "-stream_loop", Arg.s "-1", Arg.s "-i", Arg.path FileId.bg,
   Arg.s "-i", Arg.path FileId.caption,
   Arg.s "-i", Arg.path FileId.bgm,
   Arg.s "-filter_complex", Arg.filterSpec g,
   Arg.s "-map", Arg.s "[final_v]", Arg.s "-map", Arg.s "[final_a]",
   Arg.s "-c:v", Arg.s "libx264", Arg.s "-preset", Arg.s "superfast",
   Arg.s "-tune", Arg.s "zerolatency",
   Arg.s "-c:a", Arg.s "aac", Arg.s "-b:a", Arg.s "192k",
   Arg.s "-r", Arg.s "30", Arg.s "-pix_fmt", Arg.s "yuv420p",
   Arg.s "-t", Arg.q fd,
   Arg.path FileId.output]

/-- The token following the first occurrence of string flag `t`. -/
def flagValue (t : String) : List Arg → Option Arg
  | Arg.s f :: v :: rest => if f = t then some v else flagValue t (v :: rest)
  | _ :: rest => flagValue t rest
  | [] => none

/-- The ordered input manifest of a command: the tokens following each
`-i` flag, in order. -/
def inputsOf : List Arg → List Arg
  | Arg.s f :: v :: rest => if f = "-i" then v :: inputsOf rest else inputsOf (v :: rest)
  | _ :: rest => inputsOf rest
  | [] => []

inductive AudioSource
  | ORIGINAL
  | SUBSTITUTE
deriving DecidableEq, Repr

/-- Which audio feeds the output: look up the input that the graph's
`audioInputIndex` refers to in the command's input manifest; the
downloaded background-music file means SUBSTITUTE, anything else (in
particular the background media itself, input 1) means ORIGINAL. -/
def audioSourceOfCmd (cmd : List Arg) (g : FilterGraph) : AudioSource :=
  match (inputsOf cmd).get? g.audioInputIndex with
  | some (Arg.path FileId.bgm) => AudioSource.SUBSTITUTE
  | _ => AudioSource.ORIGINAL

/-- The audio-source rule as the spec words it: SUBSTITUTE iff
`!hasAudio || isSilent`, ORIGINAL otherwise. Stated for comparison with
the routing the command actually performs. -/
def audioSourceSpec (hasAudio isSilent : Bool) : AudioSource :=
  if !hasAudio || isSilent then AudioSource.SUBSTITUTE else AudioSource.ORIGINAL

/-! ## Caption wrapping (`create_caption_image`)

The source computes
`[item for line in padded_text.split('\n')
       for item in textwrap.wrap(line, width=30, break_long_words=True) or ['']]`
with `CAPTION_TOP_PADDING_LINES = 0`, so `padded_text = text`. The
`textwrap.wrap` call is modelled over `List Char`: whitespace-separated
words are packed greedily into lines of at most 30 columns separated by
single spaces, and a word longer than 30 columns is broken to fill the
space left on the current line and then into 30-column pieces. -/

/-- Model of the source's `line.split` on a newline: split a character list at every
occurrence of `c`, keeping empty pieces. -/
def splitOnChar (c : Char) : List Char → List (List Char)
  | [] => [[]]
  | a :: rest =>
    let r := splitOnChar c rest
    if a = c then [] :: r
    else
      match r with
      | [] => [[a]]
      | x :: xs => (a :: x) :: xs

/-- Whitespace-splitting pass of the wrap model: collect maximal runs of
non-whitespace characters (the second argument accumulates the current
word reversed). -/
def splitWordsAux : List Char → List Char → List (List Char)
  | [], acc => if acc = [] then [] else [acc.reverse]
  | ch :: cs, acc =>
    if ch.isWhitespace then
      if acc = [] then splitWordsAux cs []
      else acc.reverse :: splitWordsAux cs []
    else splitWordsAux cs (ch :: acc)

def splitWords (l : List Char) : List (List Char) := splitWordsAux l []

/-- Break an overlong word into pieces of at most `WRAP_WIDTH` columns
(the `break_long_words=True` behaviour). -/
def breakLongWord : List Char → List (List Char)
  | [] => []
  | ch :: cs =>
    if cs.length + 1 ≤ WRAP_WIDTH then [ch :: cs]
    else (ch :: cs).take WRAP_WIDTH :: breakLongWord ((ch :: cs).drop WRAP_WIDTH)
termination_by l => l.length
decreasing_by
  simp only [WRAP_WIDTH, List.length_drop, List.length_cons]
  omega

/-- Full lines produced by breaking an overlong word, and the remainder
that becomes the new current line. -/
def breakAll (w : List Char) : List (List Char) × List Char :=
  let chunks := breakLongWord w
  (chunks.dropLast, chunks.getLastD [])

/-- One step of the greedy fill: add a word to the accumulated
(completed lines, current line) pair. -/
def addWord (acc : List (List Char) × List Char) (w : List Char) :
    List (List Char) × List Char :=
  let lines := acc.1
  let cur := acc.2
  if cur = [] then
    if w.length ≤ WRAP_WIDTH then (lines, w)
    else
      let br := breakAll w
      (lines ++ br.1, br.2)
  else if cur.length + 1 + w.length ≤ WRAP_WIDTH then (lines, cur ++ ' ' :: w)
  else if w.length ≤ WRAP_WIDTH then (lines ++ [cur], w)
  else
    let spaceLeft := WRAP_WIDTH - (cur.length + 1)
    let br := breakAll (w.drop spaceLeft)
    (lines ++ [cur ++ ' ' :: w.take spaceLeft] ++ br.1, br.2)

/-- Model of `textwrap.wrap(line, width=30, break_long_words=True)`:
greedy fill of the whitespace-split words; an empty or whitespace-only
line yields no output lines (matching `textwrap.wrap` returning `[]`). -/
def wrapLine (l : List Char) : List (List Char) :=
  let r := (splitWords l).foldl addWord ([], [])
  if r.2 = [] then r.1 else r.1 ++ [r.2]

/-- The `textwrap.wrap(line, ...) or ['']` pattern of the source: an
empty wrap result is replaced by a single blank line. -/
def wrapOrBlank (l : List Char) : List String :=
  match wrapLine l with
  | [] => [""]
  | ls => ls.map String.mk

/-- The source's `final_lines`: split the caption text on newlines and
wrap each resulting paragraph, preserving blank lines. -/
def final_lines (text : String) : List String :=
  (splitOnChar (Char.ofNat 10) text.data).flatMap wrapOrBlank

/-! ## Caption banner sizing (`create_caption_image`) -/

/-- Vertical metrics of the loaded font (ascent + descent is the advance
of one rendered text line). -/
structure FontMetrics where
  ascent : ℕ
  descent : ℕ
deriving DecidableEq, Repr

/-- Models the height of `ImageDraw.multiline_textbbox` for `n` lines
drawn with inter-line `spacing`: each line after the first advances by
the font's line height plus the spacing. -/
def multiline_text_height (f : FontMetrics) (spacing n : ℕ) : ℕ :=
  if n = 0 then 0 else (n - 1) * (f.ascent + f.descent + spacing) + (f.ascent + f.descent)

/-- The banner image produced by `create_caption_image`: an RGBA canvas
with an opaque background-colored rectangle covering it entirely and the
wrapped text drawn with anchor `"mm"` at the canvas center and
`align="center"`. -/
structure CaptionImage where
  width : ℕ
  height : ℕ
  hasAlphaChannel : Bool
  bgRectCoversCanvas : Bool
  bgOpaque : Bool
  textAnchorCenter : Bool
  textAlignCenter : Bool
deriving DecidableEq, Repr

/-- The source's `create_caption_image`: wrap the text, measure the
wrapped block, pad it vertically by `CAPTION_V_PADDING` on both sides,
and draw the banner; returns the image and its height (the source's
`rect_height` return value). -/
def create_caption_image (f : FontMetrics) (text : String) : CaptionImage × ℕ :=
  let lines := final_lines text
  let text_height := multiline_text_height f CAPTION_LINE_SPACING lines.length
  let rect_height := text_height + 2 * CAPTION_V_PADDING
  ({ width := COMP_WIDTH.toNat
     height := rect_height
     hasAlphaChannel := true
     bgRectCoversCanvas := true
     bgOpaque := true
     textAnchorCenter := true
     textAlignCenter := true }, rect_height)

/-! ## MediaProbe audio classification

Modelled from the spec: the silence-aware audio probe is absent from the
source file (its probe functions report only dimensions and durations,
and the filter graph substitutes background music unconditionally). Per
the spec, the probe detects whether at least one audio stream exists; if
none, it classifies `hasAudio=false, isSilent=true` without running
silence analysis; otherwise it runs a silence-detection pass at a fixed
-50 dBFS noise floor, sums the reported silent intervals, and classifies
the media silent exactly when the summed silent duration is within 0.1 s
(an absolute residual) of the total duration. -/

def SILENCE_NOISE_FLOOR_DB : ℤ := -50
def SILENCE_TOLERANCE : ℚ := 1 / 10

structure AudioProbeInput where
  audioStreams : ℕ
  silentIntervals : List ℚ
  totalDuration : ℚ
deriving DecidableEq, Repr

structure AudioClassification where
  hasAudio : Bool
  isSilent : Bool
  ranSilenceAnalysis : Bool
deriving DecidableEq, Repr

/-- Modelled from the spec: MediaProbe's audio classification (see the
section comment above for what is missing from the source). -/
def classifyAudio (p : AudioProbeInput) : AudioClassification :=
  if p.audioStreams = 0 then ⟨false, true, false⟩
  else ⟨true, decide (p.totalDuration - p.silentIntervals.sum ≤ SILENCE_TOLERANCE), true⟩

/-! ## Job pipeline (`process_video_job` and the `__main__` block)

The pipeline is embedded as a pure function over an environment that
fixes the outcome of every external effect: whether each download
succeeds, what the probes report, whether the font asset exists, whether
the transform exits zero, and which `os.remove` calls raise `OSError`.
Per-job artifacts are the four `FileId`s. A failed download produces no
file, and a transform with non-zero exit produces no output file. -/

/-- Python truthiness of an optional integer: `None` and `0` are falsy. -/
def pyTruthyInt : Option ℤ → Bool
  | none => false
  | some x => decide (x ≠ 0)

/-- Python truthiness of an optional float: `None` and `0.0` are falsy. -/
def pyTruthyRat : Option ℚ → Bool
  | none => false
  | some x => decide (x ≠ 0)

/-- Outcomes of the external effects one job run can perform. -/
structure Env where
  bgOk : Bool
  bgmOk : Bool
  dims : Option (ℤ × ℤ)
  vidDur : Option ℚ
  audDur : Option ℚ
  fontPresent : Bool
  captionHeight : ℕ
  encodeOk : Bool
  rmFails : FileId → Bool
  errText : String

/-- The `if not media_path or not bgm_path` check of the source. -/
def downloadsOk (env : Env) : Bool := env.bgOk && env.bgmOk

/-- The `if not all([media_w, media_h, video_duration, audio_duration])`
check of the source: Python truthiness of all four probed values. -/
def probeOk (env : Env) : Bool :=
  pyTruthyInt (env.dims.map Prod.fst) && pyTruthyInt (env.dims.map Prod.snd) &&
    pyTruthyRat env.vidDur && pyTruthyRat env.audDur

inductive JobError
  | downloadFailed
  | probeFailed
  | fontMissing
  | encodeFailed
deriving DecidableEq, Repr

/-- What the `try` body of `process_video_job` did before finishing or
raising: the error (if any), the `files_to_clean` list it accumulated,
the files actually created on disk, and which stages were reached. -/
structure JobTrace where
  err : Option JobError
  filesToClean : List FileId
  created : List FileId
  captionAttempted : Bool
  encodeAttempted : Bool
  submitted : Bool
deriving DecidableEq, Repr

/-- Files created by the two unconditional download calls. -/
def downloadedFiles (env : Env) : List FileId :=
  (if env.bgOk then [FileId.bg] else []) ++ (if env.bgmOk then [FileId.bgm] else [])

/-- The `try` body of `process_video_job`, step for step: download both
inputs (raising before anything is registered for cleanup if either is
missing), register the downloads, probe, create the caption image
(registering it), run the transform, register and submit the output. -/
def runBody (env : Env) : JobTrace :=
  if downloadsOk env then
    if probeOk env then
      if env.fontPresent then
        if env.encodeOk then
          { err := none
            filesToClean := [FileId.bg, FileId.bgm, FileId.caption, FileId.output]
            created := [FileId.bg, FileId.bgm, FileId.caption, FileId.output]
            captionAttempted := true, encodeAttempted := true, submitted := true }
        else
          { err := some JobError.encodeFailed
            filesToClean := [FileId.bg, FileId.bgm, FileId.caption]
            created := [FileId.bg, FileId.bgm, FileId.caption]
            captionAttempted := true, encodeAttempted := true, submitted := false }
      else
        { err := some JobError.fontMissing
          filesToClean := [FileId.bg, FileId.bgm]
          created := [FileId.bg, FileId.bgm]
          captionAttempted := true, encodeAttempted := false, submitted := false }
    else
      { err := some JobError.probeFailed
        filesToClean := [FileId.bg, FileId.bgm]
        created := [FileId.bg, FileId.bgm]
        captionAttempted := false, encodeAttempted := false, submitted := false }
  else
    { err := some JobError.downloadFailed
      filesToClean := []
      created := downloadedFiles env
      captionAttempted := false, encodeAttempted := false, submitted := false }

/-- The source's `cleanup_files`: walk the list; for each entry that
exists on disk attempt `os.remove`; a removal that raises `OSError` is
logged and the walk continues with the next entry. Returns the files
whose removal was attempted and the files still on disk afterwards. -/
def cleanup_files (rf : FileId → Bool) : List FileId → List FileId → List FileId × List FileId
  | [], onDisk => ([], onDisk)
  | f :: rest, onDisk =>
    if f ∈ onDisk then
      let r := cleanup_files rf rest (if rf f then onDisk else onDisk.erase f)
      (f :: r.1, r.2)
    else cleanup_files rf rest onDisk

/-- Truncation `str(e)[-1000:]` of the source: the last 1000 characters of the
error text. -/
def errorSnippet (s : String) : String := String.mk (s.data.drop (s.data.length - 1000))

/-- Net result of one `process_video_job` call: the body trace, the
cleanup behaviour, and the caught-and-logged error. -/
structure Outcome where
  trace : JobTrace
  attemptedRemove : List FileId
  remaining : List FileId
  failed : Bool
  loggedErr : Option String
deriving DecidableEq, Repr

/-- The source's `process_video_job`: run the body under
`try/except/finally` — any body error is caught, its text truncated and
logged, and `cleanup_files(files_to_clean)` always runs. -/
def process_video_job (env : Env) : Outcome :=
  let t := runBody env
  let r := cleanup_files env.rmFails t.filesToClean t.created
  { trace := t
    attemptedRemove := r.1
    remaining := r.2
    failed := t.err.isSome
    loggedErr := t.err.map (fun _ => errorSnippet env.errText) }

/-- Queue operations the program can issue against the Redis list. -/
inductive RedisOp
  | rpop
  | lpush
  | rpush
deriving DecidableEq, Repr

/-- The queue traffic of the whole run, from the source: the main block
performs a single `rpop` of `job_queue` and nothing is ever pushed. -/
def redisOps : List RedisOp := [RedisOp.rpop]

/-- Result of one process invocation. -/
inductive RunResult
  | configError
  | ran (jobsAttempted : ℕ) (outcome : Option Outcome)
deriving DecidableEq, Repr

/-- The module-level `if not all([...])` over the five required
environment variables: `None` (unset) and the empty string are falsy. -/
def envVarsPresent (vars : List (Option String)) : Bool :=
  vars.all fun v =>
    match v with
    | none => false
    | some s => decide (s ≠ "")

/-- The `__main__` block: the module-level environment check raises
before anything else; otherwise the single fetched job (if any) is
processed exactly once and the process shuts down. -/
def runMain (vars : List (Option String)) (fetched : Option Env) : RunResult :=
  if envVarsPresent vars then
    match fetched with
    | none => RunResult.ran 0 none
    | some env => RunResult.ran 1 (some (process_video_job env))
  else RunResult.configError

def jobsAttempted : RunResult → ℕ
  | RunResult.configError => 0
  | RunResult.ran n _ => n

/-! ## Concrete environments used in counterexamples and witnesses -/

/-- A job whose background download succeeds but whose music download
fails. -/
def envPartialDownload : Env :=
  { bgOk := true, bgmOk := false, dims := none, vidDur := none, audDur := none
    fontPresent := true, captionHeight := 0, encodeOk := true
    rmFails := fun _ => false, errText := "Media or BGM download failed." }

/-- A job that reaches the transform and fails there. -/
def envEncodeFail : Env :=
  { bgOk := true, bgmOk := true, dims := some (720, 1280), vidDur := some 10, audDur := some 8
    fontPresent := true, captionHeight := 100, encodeOk := false
    rmFails := fun _ => false, errText := "ffmpeg exited 1" }

/-- A job processed while the font asset is missing. -/
def envFontMissing : Env :=
  { bgOk := true, bgmOk := true, dims := some (720, 1280), vidDur := some 10, audDur := some 8
    fontPresent := false, captionHeight := 0, encodeOk := true
    rmFails := fun _ => false, errText := "Font file not found" }

/-- A job whose probed video duration is exactly zero. -/
def envZeroDuration : Env :=
  { bgOk := true, bgmOk := true, dims := some (720, 1280), vidDur := some 0, audDur := some 8
    fontPresent := true, captionHeight := 0, encodeOk := true
    rmFails := fun _ => false, errText := "Could not get media properties (dimensions or durations)." }

/-- All five required environment variables set. -/
def allVars : List (Option String) :=
  [some "worker", some "token", some "service", some "url", some "redis"]

/-! ## Claim theorems -/

/-- C1 fails on the code: the filter graph always routes input 3 (the
downloaded background music) to the final audio stream, so for a probed
medium with `hasAudio = true` and `isSilent = false` the code still uses
SUBSTITUTE while the claim requires ORIGINAL. -/
theorem C1_counterexample :
    audioSourceOfCmd (ffmpeg_command 0 (buildFilterGraph 0 0)) (buildFilterGraph 0 0) =
      AudioSource.SUBSTITUTE ∧
    audioSourceSpec true false = AudioSource.ORIGINAL ∧
    AudioSource.SUBSTITUTE ≠ AudioSource.ORIGINAL :=
  ⟨rfl, rfl, by decide⟩

/-- C1 (amended): for every job the audio stream fed to the transform is
SUBSTITUTE — the downloaded background-music file at input index 3 —
regardless of the probed media's audio properties; the background
media's own audio is never used. -/
theorem C1_amended (fd media_y caption_y : ℚ) :
    audioSourceOfCmd (ffmpeg_command fd (buildFilterGraph media_y caption_y))
      (buildFilterGraph media_y caption_y) = AudioSource.SUBSTITUTE :=
  rfl

/-- C2: the planned output duration is `min(videoDuration, audioDuration)`,
that same value bounds the generated base color layer, and the encode is
explicitly truncated to it through the `-t` output duration cap. -/
theorem C2_duration_policy (v a media_y caption_y : ℚ) :
    final_duration v a = min v a ∧
    flagValue "-t" (ffmpeg_command (final_duration v a) (buildFilterGraph media_y caption_y)) =
      some (Arg.q (min v a)) ∧
    (ffmpeg_command (final_duration v a) (buildFilterGraph media_y caption_y)).get? 5 =
      some (Arg.colorSrc COMP_WIDTH COMP_HEIGHT (min v a)) :=
  ⟨rfl, rfl, rfl⟩

/-- C4: for probed width `w > 0`, height `h ≥ 0` and caption height `c`,
the scaled media height is `⌊h * (1080 / w)⌋`, the media's vertical
position is `1920/2 - scaledHeight/2 + 100`, the caption sits at
`mediaY - c + 1`, and both overlays are horizontally centered. -/
theorem C4_geometry (w h : ℤ) (c : ℚ) (hw : 0 < w) (hh : 0 ≤ h) :
    scaled_media_h w h = ⌊(h : ℚ) * ((1080 : ℚ) / (w : ℚ))⌋ ∧
    media_y_pos w h = (1920 : ℚ) / 2 - (scaled_media_h w h : ℚ) / 2 + 100 ∧
    caption_y_pos w h c = media_y_pos w h - c + 1 ∧
    (buildFilterGraph (media_y_pos w h) (caption_y_pos w h c)).mediaOverlay =
      ⟨XPos.centered, media_y_pos w h⟩ ∧
    (buildFilterGraph (media_y_pos w h) (caption_y_pos w h c)).captionOverlay =
      ⟨XPos.centered, caption_y_pos w h c⟩ := by
  refine ⟨?_, ?_, rfl, rfl, rfl⟩
  · have hw2 : (0 : ℚ) ≤ (w : ℚ) := by exact_mod_cast hw.le
    have hh2 : (0 : ℚ) ≤ (h : ℚ) := by exact_mod_cast hh
    have hpos : (0 : ℚ) ≤ (h : ℚ) * ((COMP_WIDTH : ℚ) / (w : ℚ)) :=
      mul_nonneg hh2 (div_nonneg (by norm_num [COMP_WIDTH]) hw2)
    unfold scaled_media_h scale_ratio pyInt
    rw [if_pos hpos]
    norm_num [COMP_WIDTH]
  · norm_num [media_y_pos, COMP_HEIGHT, MEDIA_Y_OFFSET]

/-- C5: the caption renderer splits the input on explicit newlines into
paragraphs and wraps each at 30 columns; a paragraph never produces zero
output lines, an empty paragraph produces exactly one blank line, and
wrapping `"A\n\nB"` yields exactly three logical lines. -/
theorem C5_wrap_structure (text : String) (para : List Char) :
    final_lines text = (splitOnChar (Char.ofNat 10) text.data).flatMap wrapOrBlank ∧
    wrapOrBlank [] = [""] ∧
    wrapOrBlank para ≠ [] ∧
    final_lines "A\n\nB" = ["A", "", "B"] ∧
    (final_lines "A\n\nB").length = 3 := by
  refine ⟨rfl, rfl, ?_, by decide, by decide⟩
  cases h : wrapLine para <;> simp [wrapOrBlank, h]

/-- C6: the rendered banner is exactly 1080 pixels wide, its height is
the measured wrapped-text height plus symmetric 37-pixel padding on each
side, the image is alpha-capable with an opaque background rectangle
covering the whole canvas and center-anchored, center-aligned text, and
the measured height is monotonically non-decreasing in the number of
wrapped lines. -/
theorem C6_banner (f : FontMetrics) (text : String) (n m : ℕ) (hnm : n ≤ m) :
    (create_caption_image f text).1.width = 1080 ∧
    (create_caption_image f text).1.height =
      multiline_text_height f CAPTION_LINE_SPACING (final_lines text).length +
        2 * CAPTION_V_PADDING ∧
    (create_caption_image f text).2 = (create_caption_image f text).1.height ∧
    (create_caption_image f text).1.hasAlphaChannel = true ∧
    (create_caption_image f text).1.bgRectCoversCanvas = true ∧
    (create_caption_image f text).1.bgOpaque = true ∧
    (create_caption_image f text).1.textAnchorCenter = true ∧
    (create_caption_image f text).1.textAlignCenter = true ∧
    multiline_text_height f CAPTION_LINE_SPACING n ≤
      multiline_text_height f CAPTION_LINE_SPACING m := by
  refine ⟨rfl, rfl, rfl, rfl, rfl, rfl, rfl, rfl, ?_⟩
  unfold multiline_text_height
  rcases Nat.eq_zero_or_pos n with hn | hn
  · subst hn
    simp
  · rw [if_neg (by omega), if_neg (by omega)]
    exact Nat.add_le_add_right
      (Nat.mul_le_mul_right (f.ascent + f.descent + CAPTION_LINE_SPACING) (by omega)) _

/-- Witness for C6 at a concrete font and caption. -/
theorem C6_banner_witness :
    (1 : ℕ) ≤ 2 ∧
    (create_caption_image ⟨40, 15⟩ "Hi").1.width = 1080 ∧
    multiline_text_height ⟨40, 15⟩ CAPTION_LINE_SPACING 1 ≤
      multiline_text_height ⟨40, 15⟩ CAPTION_LINE_SPACING 2 :=
  ⟨by decide, (C6_banner ⟨40, 15⟩ "Hi" 1 2 (by decide)).1,
    (C6_banner ⟨40, 15⟩ "Hi" 1 2 (by decide)).2.2.2.2.2.2.2.2⟩

/-- Witness for C4 at the spec's end-to-end scenario: a 720x1280 medium
scales to height 1920. -/
theorem C4_geometry_witness :
    (0 : ℤ) < 720 ∧
    scaled_media_h 720 1280 = ⌊(1280 : ℚ) * ((1080 : ℚ) / (720 : ℚ))⌋ ∧
    scaled_media_h 720 1280 = 1920 := by
  refine ⟨by norm_num, (C4_geometry 720 1280 200 (by norm_num) (by norm_num)).1, ?_⟩
  rw [(C4_geometry 720 1280 200 (by norm_num) (by norm_num)).1]
  norm_num

/-- Every file listed for cleanup that is on disk has its removal
attempted, whatever the removal-failure pattern: a failing `os.remove`
never aborts the walk. -/
lemma cleanup_files_mem_fst (rf : FileId → Bool) :
    ∀ (toClean onDisk : List FileId), toClean.Nodup → (∀ f ∈ toClean, f ∈ onDisk) →
      ∀ f ∈ toClean, f ∈ (cleanup_files rf toClean onDisk).1 := by
  intro toClean
  induction toClean with
  | nil =>
    intro onDisk _ _ f hf
    simp at hf
  | cons g rest ih =>
    intro onDisk hnd hsub f hf
    have hg : g ∈ onDisk := hsub g (by simp)
    rw [cleanup_files, if_pos hg]
    rcases List.mem_cons.mp hf with rfl | hfr
    · simp
    · have hnd2 : rest.Nodup := (List.nodup_cons.mp hnd).2
      have hgne : g ∉ rest := (List.nodup_cons.mp hnd).1
      have hsub2 : ∀ x ∈ rest, x ∈ (if rf g then onDisk else onDisk.erase g) := by
        intro x hx
        have hxo : x ∈ onDisk := hsub x (List.mem_cons_of_mem _ hx)
        by_cases hrg : rf g
        · simpa [hrg] using hxo
        · have hne : x ≠ g := by
            intro hxg
            exact hgne (hxg ▸ hx)
          simpa [hrg] using (List.mem_erase_of_ne hne).mpr hxo
      have := ih _ hnd2 hsub2 f hfr
      simp [this]

/-- When no removal fails, cleanup empties the disk of every file that
appears in the cleanup list. -/
lemma cleanup_files_removes_all (rf : FileId → Bool) (hrf : ∀ f, rf f = false) :
    ∀ (toClean onDisk : List FileId), onDisk.Nodup → (∀ f ∈ onDisk, f ∈ toClean) →
      (cleanup_files rf toClean onDisk).2 = [] := by
  intro toClean
  induction toClean with
  | nil =>
    intro onDisk _ hsub
    have : onDisk = [] := List.eq_nil_iff_forall_not_mem.mpr (fun x hx => by simpa using hsub x hx)
    simp [cleanup_files, this]
  | cons g rest ih =>
    intro onDisk hnd hsub
    by_cases hg : g ∈ onDisk
    · rw [cleanup_files, if_pos hg]
      simp only [hrf g, if_neg Bool.false_ne_true]
      apply ih
      · exact hnd.erase g
      · intro x hx
        have hxg : x ≠ g := ((hnd.mem_erase_iff).mp hx).1
        have hxo : x ∈ onDisk := ((hnd.mem_erase_iff).mp hx).2
        rcases List.mem_cons.mp (hsub x hxo) with h | h
        · exact absurd h hxg
        · exact h
    · rw [cleanup_files, if_neg hg]
      apply ih _ hnd
      intro x hx
      rcases List.mem_cons.mp (hsub x hx) with h | h
      · exact absurd (h ▸ hx) hg
      · exact h

/-- In every trace the cleanup list is duplicate-free and contained in
the created files. -/
lemma runBody_clean_sub (env : Env) :
    (runBody env).filesToClean.Nodup ∧
      ∀ f ∈ (runBody env).filesToClean, f ∈ (runBody env).created := by
  unfold runBody
  by_cases h1 : downloadsOk env <;> by_cases h2 : probeOk env <;>
    cases h3 : env.fontPresent <;> cases h4 : env.encodeOk <;>
      simp [h1, h2]

/-- Every file registered for cleanup has its removal attempted. -/
lemma attempted_of_clean (env : Env) :
    ∀ f ∈ (process_video_job env).trace.filesToClean,
      f ∈ (process_video_job env).attemptedRemove := by
  have h := runBody_clean_sub env
  exact cleanup_files_mem_fst env.rmFails _ _ h.1 h.2

/-- Modelled from the spec (see `classifyAudio`). C3: a medium without an
audio stream is classified `hasAudio=false, isSilent=true` with no
silence analysis; with an audio stream present, the probe runs the
-50 dBFS silence pass and reports silent exactly when the summed silent
intervals are within 0.1 s of the total duration. -/
theorem C3_silence_classification (p : AudioProbeInput) :
    (p.audioStreams = 0 →
      classifyAudio p =
        { hasAudio := false, isSilent := true, ranSilenceAnalysis := false }) ∧
    (0 < p.audioStreams →
      (classifyAudio p).hasAudio = true ∧
      (classifyAudio p).ranSilenceAnalysis = true ∧
      ((classifyAudio p).isSilent = true ↔
        p.totalDuration - p.silentIntervals.sum ≤ SILENCE_TOLERANCE)) := by
  constructor
  · intro h
    simp [classifyAudio, h]
  · intro h
    have h0 : ¬p.audioStreams = 0 := by omega
    simp [classifyAudio, h0]

/-- Witness for C3: no audio stream gives the cheap path; a fully silent
5-second track with a 5-second silent interval is classified silent. -/
theorem C3_silence_classification_witness :
    ((⟨0, [], 5⟩ : AudioProbeInput).audioStreams = 0 ∧
      classifyAudio ⟨0, [], 5⟩ =
        { hasAudio := false, isSilent := true, ranSilenceAnalysis := false }) ∧
    (0 < (⟨1, [5], 5⟩ : AudioProbeInput).audioStreams ∧
      (classifyAudio ⟨1, [5], 5⟩).isSilent = true) :=
  ⟨⟨rfl, (C3_silence_classification ⟨0, [], 5⟩).1 rfl⟩,
   ⟨by norm_num,
    ((C3_silence_classification ⟨1, [5], 5⟩).2 (by norm_num)).2.2.mpr
      (by norm_num [SILENCE_TOLERANCE])⟩⟩

/-- C7 fails on the code: when the background download succeeds but the
music download fails, the job raises before the background file is
registered in `files_to_clean`, so that artifact's removal is never
attempted and it remains on disk. -/
theorem C7_counterexample :
    (process_video_job envPartialDownload).trace.created = [FileId.bg] ∧
    FileId.bg ∉ (process_video_job envPartialDownload).attemptedRemove ∧
    (process_video_job envPartialDownload).remaining = [FileId.bg] := by
  decide

/-- C7 (amended): every artifact registered in the job's cleanup list is
attempted for removal at job end, and a deletion error on one file never
prevents the attempted deletion of the rest; whenever both downloads
succeed the registered artifacts are exactly the created ones, so every
artifact is attempted; after an encoding failure (with removals
succeeding) the downloads and the caption image are absent from disk and
no output file was ever created. Only a download half-failure can leave
an unregistered artifact behind. -/
theorem C7_amended_cleanup (env : Env) :
    (∀ f ∈ (process_video_job env).trace.filesToClean,
      f ∈ (process_video_job env).attemptedRemove) ∧
    (downloadsOk env = true →
      (process_video_job env).trace.created = (process_video_job env).trace.filesToClean) ∧
    (downloadsOk env = true → probeOk env = true → env.fontPresent = true →
      env.encodeOk = false → (∀ f, env.rmFails f = false) →
      (process_video_job env).remaining = [] ∧
      FileId.output ∉ (process_video_job env).trace.created) := by
  refine ⟨attempted_of_clean env, ?_, ?_⟩
  · intro h1
    unfold process_video_job runBody
    by_cases h2 : probeOk env <;> cases h3 : env.fontPresent <;> cases h4 : env.encodeOk <;>
      simp [h1, h2]
  · intro h1 h2 h3 h4 hrm
    have htrace : runBody env =
        { err := some JobError.encodeFailed
          filesToClean := [FileId.bg, FileId.bgm, FileId.caption]
          created := [FileId.bg, FileId.bgm, FileId.caption]
          captionAttempted := true, encodeAttempted := true, submitted := false } := by
      unfold runBody
      simp [h1, h2, h3, h4]
    constructor
    · show (cleanup_files env.rmFails (runBody env).filesToClean (runBody env).created).2 = []
      rw [htrace]
      exact cleanup_files_removes_all env.rmFails hrm _ _ (by decide) (by decide)
    · show FileId.output ∉ (runBody env).created
      rw [htrace]
      decide

/-- Witness for C7 (amended) at a concrete encode-failure job: all three
registered artifacts are attempted, nothing remains on disk, and no
output file was created. -/
theorem C7_amended_cleanup_witness :
    downloadsOk envEncodeFail = true ∧
    probeOk envEncodeFail = true ∧
    (process_video_job envEncodeFail).remaining = [] ∧
    FileId.output ∉ (process_video_job envEncodeFail).trace.created := by
  have h1 : downloadsOk envEncodeFail = true := by decide
  have h2 : probeOk envEncodeFail = true := by decide
  refine ⟨h1, h2, ?_, ?_⟩
  · exact ((C7_amended_cleanup envEncodeFail).2.2 h1 h2 rfl rfl (fun _ => rfl)).1
  · exact ((C7_amended_cleanup envEncodeFail).2.2 h1 h2 rfl rfl (fun _ => rfl)).2

/-- C8: every per-job error is caught at the pipeline boundary and
resolved as job failure; the logged message is the truncated error text
and never exceeds 1000 characters; cleanup still runs for every
registered artifact; the process handles at most one job per run and the
queue only ever sees a single pop, never a push (no retry, no
re-queue). -/
theorem C8_error_boundary (env : Env) (vars : List (Option String)) (fetched : Option Env) :
    (process_video_job env).failed = ((runBody env).err).isSome ∧
    (∀ e, (runBody env).err = some e →
      (process_video_job env).loggedErr = some (errorSnippet env.errText)) ∧
    (∀ s, (process_video_job env).loggedErr = some s → s.length ≤ 1000) ∧
    (∀ f ∈ (process_video_job env).trace.filesToClean,
      f ∈ (process_video_job env).attemptedRemove) ∧
    jobsAttempted (runMain vars fetched) ≤ 1 ∧
    RedisOp.rpush ∉ redisOps ∧ RedisOp.lpush ∉ redisOps := by
  refine ⟨rfl, ?_, ?_, attempted_of_clean env, ?_, by decide, by decide⟩
  · intro e he
    simp [process_video_job, he]
  · intro s hs
    have hlen : ∀ t : String, (errorSnippet t).length ≤ 1000 := by
      intro t
      simp only [errorSnippet, String.length]
      rw [List.length_drop]
      omega
    rcases herr : (runBody env).err with _ | e
    · simp [process_video_job, herr] at hs
    · simp [process_video_job, herr] at hs
      rw [← hs]
      exact hlen env.errText
  · rcases fetched with _ | env2 <;> by_cases hv : envVarsPresent vars <;>
      simp [runMain, jobsAttempted, hv]

/-- Witness for C8 at a concrete failing job: the encode failure is
resolved as job failure with a bounded logged message. -/
theorem C8_error_boundary_witness :
    (runBody envEncodeFail).err = some JobError.encodeFailed ∧
    (process_video_job envEncodeFail).loggedErr = some (errorSnippet "ffmpeg exited 1") ∧
    (errorSnippet "ffmpeg exited 1").length ≤ 1000 := by
  have h2 : probeOk envEncodeFail = true := by decide
  have herr : (runBody envEncodeFail).err = some JobError.encodeFailed := by decide
  have hlog : (process_video_job envEncodeFail).loggedErr = some (errorSnippet "ffmpeg exited 1") :=
    (C8_error_boundary envEncodeFail [] none).2.1 JobError.encodeFailed herr
  exact ⟨herr, hlog,
    (C8_error_boundary envEncodeFail [] none).2.2.1 (errorSnippet "ffmpeg exited 1") hlog⟩

/-- C9 fails on the code: with all environment variables set but the
font asset missing, the run is not a startup configuration error — the
job is attempted (and resolved as an ordinary per-job failure). -/
theorem C9_counterexample :
    jobsAttempted (runMain allVars (some envFontMissing)) = 1 ∧
    runMain allVars (some envFontMissing) ≠ RunResult.configError ∧
    (process_video_job envFontMissing).failed = true := by
  decide

/-- C9 (amended): a missing required environment variable is fatal at
startup — the module-level check raises before any job is attempted; a
missing font asset, by contrast, surfaces inside caption rendering and
is handled as an ordinary per-job failure: the job is attempted, fails
with the font error after the downloads, and no caption artifact is
created. -/
theorem C9_amended (vars : List (Option String)) (env : Env) (fetched : Option Env) :
    (envVarsPresent vars = false → runMain vars fetched = RunResult.configError) ∧
    (envVarsPresent vars = true → env.fontPresent = false → downloadsOk env = true →
      probeOk env = true →
      runMain vars (some env) = RunResult.ran 1 (some (process_video_job env)) ∧
      (process_video_job env).failed = true ∧
      (process_video_job env).trace.err = some JobError.fontMissing ∧
      FileId.caption ∉ (process_video_job env).trace.created) := by
  constructor
  · intro h
    simp [runMain, h]
  · intro hv hf h1 h2
    have htrace : runBody env =
        { err := some JobError.fontMissing
          filesToClean := [FileId.bg, FileId.bgm]
          created := [FileId.bg, FileId.bgm]
          captionAttempted := true, encodeAttempted := false, submitted := false } := by
      unfold runBody
      simp [h1, h2, hf]
    refine ⟨by simp [runMain, hv], ?_, ?_, ?_⟩
    · show ((runBody env).err).isSome = true
      rw [htrace]
      rfl
    · show (runBody env).err = some JobError.fontMissing
      rw [htrace]
    · show FileId.caption ∉ (runBody env).created
      rw [htrace]
      decide


/-- Witness for C9 (amended): one unset variable aborts at startup; the
missing-font job at `envFontMissing` is attempted and fails per-job. -/
theorem C9_amended_witness :
    runMain [none] (some envFontMissing) = RunResult.configError ∧
    (process_video_job envFontMissing).failed = true ∧
    FileId.caption ∉ (process_video_job envFontMissing).trace.created := by
  have h2 : probeOk envFontMissing = true := by decide
  refine ⟨(C9_amended [none] envFontMissing (some envFontMissing)).1 rfl, ?_, ?_⟩
  · exact ((C9_amended allVars envFontMissing (some envFontMissing)).2 (by decide) rfl rfl h2).2.1
  · exact ((C9_amended allVars envFontMissing (some envFontMissing)).2 (by decide) rfl rfl h2).2.2.2

/-- C10: with both downloads succeeded, the property check fails exactly
when some probed value is unresolvable (`None`) or exactly zero — Python
truthiness makes `0` indistinguishable from a probe error — and in that
case the job fails before caption rendering and before any encode
attempt. -/
theorem C10_zero_probe_values (env : Env) (hbg : env.bgOk = true) (hbgm : env.bgmOk = true) :
    (probeOk env = false ↔
      env.dims.map Prod.fst = none ∨ env.dims.map Prod.fst = some 0 ∨
      env.dims.map Prod.snd = none ∨ env.dims.map Prod.snd = some 0 ∨
      env.vidDur = none ∨ env.vidDur = some 0 ∨
      env.audDur = none ∨ env.audDur = some 0) ∧
    (probeOk env = false →
      (process_video_job env).failed = true ∧
      (process_video_job env).trace.err = some JobError.probeFailed ∧
      (process_video_job env).trace.captionAttempted = false ∧
      (process_video_job env).trace.encodeAttempted = false) := by
  constructor
  · rcases hd : env.dims with _ | ⟨w, h⟩ <;>
      rcases hv : env.vidDur with _ | v <;>
      rcases ha : env.audDur with _ | a <;>
      simp [probeOk, pyTruthyInt, pyTruthyRat, hd, hv, ha] <;>
      tauto
  · intro hp
    have h1 : downloadsOk env = true := by
      simp [downloadsOk, hbg, hbgm]
    have htrace : runBody env =
        { err := some JobError.probeFailed
          filesToClean := [FileId.bg, FileId.bgm]
          created := [FileId.bg, FileId.bgm]
          captionAttempted := false, encodeAttempted := false, submitted := false } := by
      unfold runBody
      simp [h1, hp]
    refine ⟨?_, ?_, ?_, ?_⟩
    · show ((runBody env).err).isSome = true
      rw [htrace]
      rfl
    · show (runBody env).err = some JobError.probeFailed
      rw [htrace]
    · show (runBody env).captionAttempted = false
      rw [htrace]
    · show (runBody env).encodeAttempted = false
      rw [htrace]

/-- Witness for C10 at a job whose probed video duration is exactly 0:
the job fails before caption rendering and encoding. -/
theorem C10_zero_probe_values_witness :
    probeOk envZeroDuration = false ∧
    (process_video_job envZeroDuration).failed = true ∧
    (process_video_job envZeroDuration).trace.captionAttempted = false := by
  have hp : probeOk envZeroDuration = false := by decide
  refine ⟨hp, ?_, ?_⟩
  · exact ((C10_zero_probe_values envZeroDuration rfl rfl).2 hp).1
  · exact ((C10_zero_probe_values envZeroDuration rfl rfl).2 hp).2.2.1

end Televideditor
